import Mathlib

/-!
Verification of the connection-resilience subsystem of `block-checker`
(`src/database/error_analyzer.go`, `src/database/connection.go`) against its
natural-language specification.

The Go code is shallowly embedded: Go `string` becomes Lean `String`
(`strings.ToLower` maps `Char.toLower` over the characters, `strings.Contains`
is contiguous-sublist occurrence), Go `int` becomes `Int`, `time.Time` /
`time.Duration` become `Int` (an instant on an integer clock; `t.Before(u)` is
`t < u`), Go maps iterated and filtered become association lists, and the
background goroutine plus `context` cancellation become an explicit step
function over a `Reconnector` state record with a fuel bound and an oracle for
the outcomes of the external dial/ping calls.
-/

namespace BlockChecker

/-! ### Go string primitives -/

/-- Embedding of Go `strings.ToLower` (rune-wise lowercasing; for the ASCII and
CJK characters appearing in this program the two agree with `Char.toLower`). -/
def goToLower (s : String) : String := ⟨ s.data.map Char.toLower ⟩

/-- Embedding of Go `strings.Contains s sub`: `sub` occurs contiguously in `s`. -/
def goContains (s sub : String) : Bool := decide (sub.data <:+: s.data)

/-! ### Error taxonomy and pattern table (`connection.go`, `error_analyzer.go`) -/

/-- Go `type ErrorType string`. -/
abbrev ErrorType := String

def ErrorTypeNetwork : ErrorType := "network"
def ErrorTypeAuth : ErrorType := "authentication"
def ErrorTypeConfig : ErrorType := "configuration"
def ErrorTypeTimeout : ErrorType := "timeout"
def ErrorTypeSQL : ErrorType := "sql"
def ErrorTypeUnknown : ErrorType := "unknown"

/-- Go struct `ErrorPattern`. -/
structure ErrorPattern where
  keywords : List String
  type : ErrorType
  code : String
  cause : String
  suggestion : String
  severity : Int
deriving DecidableEq

/-- The fixed ordered pattern table built by the pattern-table constructor in
`error_analyzer.go` (order encodes matching priority). -/
def errorPatterns : List ErrorPattern :=
  [ { keywords := [ "connection refused", "连接被拒绝" ],
      type := ErrorTypeNetwork, code := "NET_001",
      cause := "数据库服务器拒绝连接",
      suggestion := "检查数据库服务是否运行，端口是否正确，防火墙设置",
      severity := 4 },
    { keywords := [ "no route to host", "网络不可达" ],
      type := ErrorTypeNetwork, code := "NET_002",
      cause := "网络路由问题",
      suggestion := "检查网络连接，DNS解析，服务器IP地址",
      severity := 4 },
    { keywords := [ "timeout", "超时", "context deadline exceeded" ],
      type := ErrorTypeTimeout, code := "TIME_001",
      cause := "连接或查询超时",
      suggestion := "检查网络延迟，增加超时时间，优化查询性能",
      severity := 3 },
    { keywords := [ "access denied", "认证失败", "authentication failed" ],
      type := ErrorTypeAuth, code := "AUTH_001",
      cause := "身份验证失败",
      suggestion := "检查用户名密码，用户权限，主机访问权限",
      severity := 5 },
    { keywords := [ "unknown database", "database doesn't exist", "数据库不存在" ],
      type := ErrorTypeConfig, code := "CFG_001",
      cause := "指定的数据库不存在",
      suggestion := "确认数据库名称正确，检查数据库是否已创建",
      severity := 4 },
    { keywords := [ "too many connections", "连接数过多" ],
      type := ErrorTypeNetwork, code := "NET_003",
      cause := "数据库连接数超过限制",
      suggestion := "优化连接池配置，增加最大连接数，检查连接泄露",
      severity := 3 },
    { keywords := [ "disk full", "磁盘空间不足", "no space left" ],
      type := ErrorTypeConfig, code := "CFG_003",
      cause := "磁盘空间不足",
      suggestion := "清理磁盘空间，增加存储容量，配置日志轮转",
      severity := 5 },
    { keywords := [ "lock wait timeout", "锁等待超时" ],
      type := ErrorTypeSQL, code := "SQL_002",
      cause := "事务锁等待超时",
      suggestion := "优化事务逻辑，减少锁持有时间，检查死锁",
      severity := 3 } ]

/-- The default pattern returned by `matchErrorPattern` when no table entry
matches (`error_analyzer.go` lines 176-182); `keywords` is Go's zero value. -/
def unknownPattern : ErrorPattern :=
  { keywords := [],
    type := ErrorTypeUnknown, code := "UNK_001",
    cause := "未识别的错误类型",
    suggestion := "请联系系统管理员并提供完整错误信息",
    severity := 2 }

/-- Inner loop of `matchErrorPattern`: scan a pattern's keywords, returning
true on the first keyword contained (lower-cased) in the lower-cased message. -/
def scanKeywords (lmsg : String) : List String → Bool
  | [] => false
  | k :: ks => if goContains lmsg (goToLower k) then true else scanKeywords lmsg ks

/-- Outer loop of `matchErrorPattern`: scan the ordered table, returning the
first pattern one of whose keywords occurs in the lower-cased message. -/
def scanPatterns (lmsg : String) : List ErrorPattern → Option ErrorPattern
  | [] => none
  | p :: ps => if scanKeywords lmsg p.keywords then some p else scanPatterns lmsg ps

/-- Embedding of `ErrorAnalyzer.matchErrorPattern` (`error_analyzer.go` 161-183):
lower-case the message, scan the ordered table, fall back to `unknownPattern`. -/
def matchErrorPattern (errorMsg : String) : ErrorPattern :=
  match scanPatterns (goToLower errorMsg) errorPatterns with
  | some p => p
  | none => unknownPattern

/-- Embedding of `ErrorAnalyzer.enhanceSuggestion` (`error_analyzer.go` 186-205).
The Go `switch pattern.Type` is an equality chain on the string-typed category;
`fmt.Sprintf` with `%d` prints the decimal of the Go `int`. -/
def enhanceSuggestion (pattern : ErrorPattern) (retryCount : Int) : String :=
  let suggestion := pattern.suggestion
  if retryCount > 0 then
    if pattern.type = ErrorTypeNetwork then
      if retryCount > 10 then
        suggestion ++ " | 已重试" ++ toString retryCount ++ "次，建议检查网络稳定性"
      else suggestion
    else if pattern.type = ErrorTypeTimeout then
      if retryCount > 5 then
        suggestion ++ " | 连续" ++ toString retryCount ++ "次超时，建议增加超时配置"
      else suggestion
    else if pattern.type = ErrorTypeAuth then
      suggestion ++ " | 认证错误通常不会通过重试解决，请立即检查配置"
    else suggestion
  else suggestion

/-- Go struct `ErrorDetails` (`connection.go` 32-40); `timestamp` carries the
already-formatted wall-clock string. -/
structure ErrorDetails where
  type : ErrorType
  code : String
  message : String
  cause : String
  suggestion : String
  timestamp : String
  retryCount : Int
deriving DecidableEq

/-- Value computed and returned by `ErrorAnalyzer.AnalyzeError`
(`error_analyzer.go` 130-158) for a non-nil error with message `errorMsg`;
`nowStr` is the formatted current time.  The method's two side effects
(summary aggregation and logging) do not feed back into this value and are
modelled separately (`clearOldLoop` below for the summary store, the logger
state machine below for logging). -/
def analyzeError (errorMsg : String) (retryCount : Int) (nowStr : String) : ErrorDetails :=
  let pattern := matchErrorPattern errorMsg
  { type := pattern.type
    code := pattern.code
    message := errorMsg
    cause := pattern.cause
    suggestion := enhanceSuggestion pattern retryCount
    timestamp := nowStr
    retryCount := retryCount }

/-! ### Error summaries and age-based purge (`error_analyzer.go`) -/

/-- Go struct `ErrorSummary`; instants are integers, the hourly frequency map
is an association list keyed by the formatted hour string. -/
structure ErrorSummary where
  type : ErrorType
  code : String
  count : Int
  firstSeen : Int
  lastSeen : Int
  frequencyData : List (String × Int)
  examples : List String
  resolved : Bool
deriving DecidableEq

/-- The `ErrorAnalyzer` state the purge operation touches: the keyed summary
map (`key = type_code`), as an association list. -/
structure ErrorAnalyzer where
  summaries : List (String × ErrorSummary)
  maxExamples : Int
deriving DecidableEq

/-- The range-and-delete loop inside `ClearOldErrors` (`error_analyzer.go`
345-350): drop every summary whose `lastSeen` is before the cutoff, count the
deletions. -/
def clearOldLoop (cutoff : Int) : List (String × ErrorSummary) → List (String × ErrorSummary) × Nat
  | [] => ( [], 0 )
  | kv :: rest =>
    let r := clearOldLoop cutoff rest
    if kv.2.lastSeen < cutoff then (r.1, r.2 + 1) else (kv :: r.1, r.2)

/-- Embedding of `ErrorAnalyzer.ClearOldErrors` (`error_analyzer.go` 338-357):
`cutoff = now - olderThan`, summaries with `lastSeen.Before(cutoff)` are
deleted and counted.  (The follow-up log call does not touch the summaries.) -/
def ErrorAnalyzer.ClearOldErrors (ea : ErrorAnalyzer) (olderThan now : Int) : ErrorAnalyzer × Nat :=
  let cutoff := now - olderThan
  let r := clearOldLoop cutoff ea.summaries
  ( { ea with summaries := r.1 }, r.2 )

/-! ### Logger (`error_analyzer.go` logger section) -/

/-- Go `type LogLevel int` with its iota constants. -/
abbrev LogLevel := Int

def LogLevelDebug : LogLevel := 0
def LogLevelInfo : LogLevel := 1
def LogLevelWarn : LogLevel := 2
def LogLevelError : LogLevel := 3
def LogLevelFatal : LogLevel := 4

/-- Go struct `ConnectionInfo`. -/
structure ConnectionInfo where
  host : String
  port : String
  username : String
  password : String
  database : String
deriving DecidableEq

/-- Go struct `LogEntry`; the timestamp is an instant on the integer clock. -/
structure LogEntry where
  level : LogLevel
  message : String
  timestamp : Int
  details : String
  count : Int
  connectionInfo : Option ConnectionInfo
deriving DecidableEq

/-- Go struct `DatabaseLogger`.  In the source `lastEntry` is a pointer that —
after an append — refers to the (heap-escaped) local variable `entry`, not to
the slice element holding its copy; it is therefore a cell separate from
`entries`, exactly as in the running program. -/
structure DatabaseLogger where
  entries : List LogEntry
  maxEntries : Int
  currentLevel : LogLevel
  lastEntry : Option LogEntry
  suppressDuplicates : Bool
deriving DecidableEq

/-- The logger as built by its accessor on first use: empty buffer, capacity
100, threshold Info, suppression on. -/
def databaseLogger0 : DatabaseLogger :=
  { entries := []
    maxEntries := 100
    currentLevel := LogLevelInfo
    lastEntry := none
    suppressDuplicates := true }

/-- Predicate of the duplicate-suppression test in `addEntry`
(`error_analyzer.go` 494-495). -/
def isDuplicate (dl : DatabaseLogger) (level : LogLevel) (message : String) : Bool :=
  dl.suppressDuplicates &&
    match dl.lastEntry with
    | none => false
    | some le => decide (le.message = message) && decide (le.level = level)

/-- Embedding of `DatabaseLogger.addEntry` (`error_analyzer.go` 485-524);
`now` is the current instant, `connInfo` the optional variadic argument.
On the suppression path only the detached `lastEntry` cell is updated (the
slice element is a separate copy, see `DatabaseLogger`).  Otherwise the entry
is appended, evicting the oldest entry first when the buffer is at or above
capacity.  The mirror to the standard log sink is I/O and not modelled. -/
def DatabaseLogger.addEntry (dl : DatabaseLogger) (level : LogLevel) (message details : String)
    (connInfo : Option ConnectionInfo) (now : Int) : DatabaseLogger :=
  if level < dl.currentLevel then dl
  else if isDuplicate dl level message then
    match dl.lastEntry with
    | none => dl
    | some le => { dl with lastEntry := some { le with count := le.count + 1, timestamp := now } }
  else
    let entry : LogEntry :=
      { level := level, message := message, timestamp := now, details := details,
        count := 1, connectionInfo := connInfo }
    let kept := if (dl.entries.length : Int) ≥ dl.maxEntries then dl.entries.drop 1 else dl.entries
    { dl with entries := kept ++ [ entry ], lastEntry := some entry }

/-- Embedding of `DatabaseLogger.SetMaxEntries` (`error_analyzer.go` 471-475):
it only stores the new bound, never trimming the buffer. -/
def DatabaseLogger.SetMaxEntries (dl : DatabaseLogger) (max : Int) : DatabaseLogger :=
  { dl with maxEntries := max }

/-! ### Reconnector (`error_analyzer.go` reconnector section) -/

/-- Go struct `Reconnector`; `ctxCancelled` models whether the cancellation
context created once at construction has been cancelled (it is never
recreated). -/
structure Reconnector where
  isConnected : Bool
  reconnecting : Bool
  ctxCancelled : Bool
  retryCount : Int
  lastError : Option String
  errorHistory : List String
deriving DecidableEq

/-- The reconnector as built by its accessor on first use: fresh live
context, all other fields Go zero values. -/
def reconnector0 : Reconnector :=
  { isConnected := false
    reconnecting := false
    ctxCancelled := false
    retryCount := 0
    lastError := none
    errorHistory := [] }

/-- Embedding of `Reconnector.StartReconnection` (`error_analyzer.go`
912-922).  The second component records whether a new retry-loop goroutine
was launched. -/
def Reconnector.StartReconnection (r : Reconnector) : Reconnector × Bool :=
  if r.reconnecting then (r, false)
  else ( { r with reconnecting := true }, true )

/-- Embedding of `Reconnector.StopReconnection` (`error_analyzer.go` 925-930):
clear the flag and cancel the (sole, never recreated) context. -/
def Reconnector.StopReconnection (r : Reconnector) : Reconnector :=
  { r with reconnecting := false, ctxCancelled := true }

/-- Embedding of `Reconnector.addErrorToHistory` (`error_analyzer.go`
1033-1042): keep at most the 10 most recent entries.  (The wall-clock prefix
the source formats into the entry is part of the opaque entry string.) -/
def addErrorToHistory (history : List String) (entry : String) : List String :=
  let kept := if history.length ≥ 10 then history.drop 1 else history
  kept ++ [ entry ]

/-- One doubling-with-cap step of the backoff in `reconnectionLoop`
(`error_analyzer.go` 976-980): `currentDelay *= 2`, clamped to `maxDelay`.
Delays are in seconds. -/
def nextDelay (d : Nat) : Nat :=
  let d2 := d * 2
  if d2 > 30 then 30 else d2

/-- The inter-attempt delay before the (n+1)-st retry wait of one loop run:
the loop starts at `initialDelay = 1s` and applies `nextDelay` after each
failed attempt's wait. -/
def delaySeq : Nat → Nat
  | 0 => 1
  | n + 1 => nextDelay (delaySeq n)

/-- Embedding of `Reconnector.reconnectionLoop` (`error_analyzer.go` 933-984).
`fuel` bounds the number of iterations observed (the Go loop is unbounded);
`tryOutcome i` is the outcome of the i-th `tryConnect` call in this run —
`none` for success, `some msg` for failure with driver error `msg` (the
handle swap on success and the dial/ping against the external service are
the abstracted environment; on failure `tryConnect` records `lastError` and
appends to the error history, and the loop increments `retryCount`).
Returns the final reconnector state, the number of `tryConnect` calls
performed, and the list of delays slept.  Cancellation is checked first in
each iteration, exactly as the `select` with a ready `ctx.Done()` case is
taken in preference to `default`. -/
def Reconnector.reconnectionLoop (r : Reconnector) (fuel : Nat) (tryOutcome : Nat → Option String)
    (attemptIdx : Nat) (currentDelay : Nat) : Reconnector × Nat × List Nat :=
  match fuel with
  | 0 => (r, 0, [])
  | fuel + 1 =>
    if r.ctxCancelled then (r, 0, [])
    else
      match tryOutcome attemptIdx with
      | none =>
        ( { r with isConnected := true, reconnecting := false,
                   retryCount := 0, lastError := none }, 1, [] )
      | some msg =>
        let r' := { r with retryCount := r.retryCount + 1,
                           lastError := some msg,
                           errorHistory := addErrorToHistory r.errorHistory msg }
        let rest := Reconnector.reconnectionLoop r' fuel tryOutcome (attemptIdx + 1) (nextDelay currentDelay)
        (rest.1, rest.2.1 + 1, currentDelay :: rest.2.2)

/-- Entry of `reconnectionLoop` as launched by `StartReconnection`: a fresh
run starts with `currentDelay = initialDelay = 1` second. -/
def Reconnector.reconnectionLoopEntry (r : Reconnector) (fuel : Nat)
    (tryOutcome : Nat → Option String) : Reconnector × Nat × List Nat :=
  Reconnector.reconnectionLoop r fuel tryOutcome 0 1

/-- The warning text logged by `OnConnectionLost` (`error_analyzer.go` 1051). -/
def connectionLostWarning : String := "❌ 数据库连接丢失，启动重连程序..."

/-- Embedding of `Reconnector.OnConnectionLost` (`error_analyzer.go`
1044-1053): mark disconnected, log the warning, start reconnection.  Returns
the new state, whether a retry loop was launched, and the messages logged. -/
def Reconnector.OnConnectionLost (r : Reconnector) : Reconnector × Bool × List String :=
  let r1 := { r with isConnected := false }
  let s := r1.StartReconnection
  (s.1, s.2, [ connectionLostWarning ])

/-- Embedding of `Reconnector.CheckConnection` (`error_analyzer.go`
1056-1070).  `db` is the shared handle (`none` = nil), `pingErr` the outcome
of `db.Ping()` when the handle exists.  Returns the boolean result, the new
reconnector state, whether a retry loop was launched, and the messages
logged. -/
def Reconnector.CheckConnection (r : Reconnector) (db : Option Unit)
    (pingErr : Option String) : Bool × Reconnector × Bool × List String :=
  match db with
  | none => (false, r, false, [])
  | some _ =>
    match pingErr with
    | some _ =>
      let l := r.OnConnectionLost
      (false, l.1, l.2.1, l.2.2)
    | none => (true, { r with isConnected := true }, false, [])

/-! ### CheckStatus (`connection.go` 145-209) -/

/-- Go struct `DBStatus`; `omitempty` fields are options. -/
structure DBStatus where
  status : String
  timestamp : Option String
  error : Option String
  errorDetails : Option ErrorDetails
deriving DecidableEq

/-- Embedding of `CheckStatus` (`connection.go` 145-209).  The environment is
explicit: `db` the shared handle, `pingErr` the outcome of `db.Ping()`,
`queryRes` the outcome of the `SELECT NOW()` probe, `r` the reconnector
singleton, `nowStr` the formatted current time used for error details.
Returns the status value and the reconnector state after the call (the
summary/log side effects of `analyzeError` are modelled separately). -/
def CheckStatus (db : Option Unit) (pingErr : Option String)
    (queryRes : Except String String) (r : Reconnector) (nowStr : String) : DBStatus × Reconnector :=
  match db with
  | none =>
    ( { status := "Not Connected"
        timestamp := none
        error := some "Database not initialized"
        errorDetails := some
          { type := ErrorTypeConfig
            code := "CFG_002"
            message := "Database not initialized"
            cause := "数据库连接未初始化"
            suggestion := "请检查数据库配置和启动过程"
            timestamp := nowStr
            retryCount := 0 } }, r )
  | some _ =>
    match pingErr with
    | some err =>
      let retryCount := r.retryCount
      let details := analyzeError err retryCount nowStr
      let l := r.OnConnectionLost
      let r2 := l.1
      if r2.reconnecting then
        let msg :=
          if retryCount > 0 then
            "正在尝试重新连接数据库... (第 " ++ toString retryCount ++ " 次重试)"
          else "正在尝试重新连接数据库..."
        ( { status := "Reconnecting"
            timestamp := none
            error := some msg
            errorDetails := some { details with message := msg } }, r2 )
      else
        ( { status := "Not Connected"
            timestamp := none
            error := some ( "Database connection failed: " ++ err )
            errorDetails := some details }, r2 )
    | none =>
      match queryRes with
      | .error qerr =>
        ( { status := "Failed"
            timestamp := none
            error := some ( "Query failed: " ++ qerr )
            errorDetails := some (analyzeError qerr 0 nowStr) }, r )
      | .ok t =>
        ( { status := "OK"
            timestamp := some t
            error := none
            errorDetails := none }, r )

/-! ### Statement helpers and concrete fixtures -/

/-- Specification-side predicate: pattern `p` matches message `msg` when some
keyword of `p` occurs, after lower-casing both, as a contiguous substring of
the message. -/
def keywordHit (p : ErrorPattern) (msg : String) : Prop :=
  ∃ k ∈ p.keywords, (goToLower k).data <:+: (goToLower msg).data

/-- Fixture: a log entry. -/
def logEntryA : LogEntry :=
  { level := LogLevelInfo, message := "a", timestamp := 1, details := "",
    count := 1, connectionInfo := none }

/-- Fixture: a second log entry. -/
def logEntryB : LogEntry :=
  { level := LogLevelInfo, message := "b", timestamp := 2, details := "",
    count := 1, connectionInfo := none }

/-- Fixture: a logger holding two entries with capacity two. -/
def loggerAtCapacity : DatabaseLogger :=
  { entries := [ logEntryA, logEntryB ], maxEntries := 2,
    currentLevel := LogLevelInfo, lastEntry := some logEntryB,
    suppressDuplicates := true }

/-- Fixture: an old error summary (last seen at instant 10). -/
def summaryExampleOld : ErrorSummary :=
  { type := ErrorTypeNetwork, code := "NET_001", count := 3, firstSeen := 1,
    lastSeen := 10, frequencyData := [], examples := [ "connection refused" ],
    resolved := false }

/-- Fixture: a recent error summary (last seen at instant 99). -/
def summaryExampleNew : ErrorSummary :=
  { type := ErrorTypeTimeout, code := "TIME_001", count := 1, firstSeen := 99,
    lastSeen := 99, frequencyData := [], examples := [ "timeout" ],
    resolved := false }

/-- Fixture: an analyzer holding one old and one recent summary. -/
def analyzerExample : ErrorAnalyzer :=
  { summaries := [ ( "network_NET_001", summaryExampleOld ),
                   ( "timeout_TIME_001", summaryExampleNew ) ],
    maxExamples := 10 }

/-! ## Theorems -/

/-- Claim C6: when no database connection has been initialized (the shared
handle is nil), `CheckStatus` returns a status value rather than a hard
error: status "Not Connected" with error details carrying code "CFG_002" and
category configuration — and it leaves the reconnector untouched. -/
theorem C6_checkStatus_uninitialized (pingErr : Option String)
    (queryRes : Except String String) (r : Reconnector) (nowStr : String) :
    (CheckStatus none pingErr queryRes r nowStr).1.status = "Not Connected"
    ∧ (CheckStatus none pingErr queryRes r nowStr).1.errorDetails.map ErrorDetails.code
        = some "CFG_002"
    ∧ (CheckStatus none pingErr queryRes r nowStr).1.errorDetails.map ErrorDetails.type
        = some ErrorTypeConfig
    ∧ (CheckStatus none pingErr queryRes r nowStr).2 = r :=
  ⟨rfl, rfl, rfl, rfl⟩

/-- Claim C10: with a nil shared handle, `CheckConnection` returns false and
has no effect — reconnector state unchanged, nothing logged, no loop started;
`OnConnectionLost` (and its warning log) happens exactly when a non-nil
handle fails its ping, and a successful ping only marks the connection
healthy. -/
theorem C10_checkConnection_nil_frame (r : Reconnector) (pingErr : Option String) :
    r.CheckConnection none pingErr = (false, r, false, [])
    ∧ (∀ e : String,
        (r.CheckConnection (some ()) (some e)).2.2.2 = [ connectionLostWarning ])
    ∧ r.CheckConnection (some ()) none = (true, { r with isConnected := true }, false, []) :=
  ⟨rfl, fun _ => rfl, rfl⟩

/-- Claim C9: once `StopReconnection` has run, the (never recreated)
cancellation context stays cancelled, so a subsequent `StartReconnection`
does set the reconnecting flag and launch the loop, but the loop exits at
once on the cancelled context — zero connection attempts, no delay slept,
state (in particular the flag) untouched — and every later
`StartReconnection` is a no-op with the flag stuck at true. -/
theorem C9_stop_poisons_restart (r : Reconnector) (fuel : Nat)
    (tryOutcome : Nat → Option String) :
    (r.StopReconnection.StartReconnection).2 = true
    ∧ (r.StopReconnection.StartReconnection).1.reconnecting = true
    ∧ (r.StopReconnection.StartReconnection).1.ctxCancelled = true
    ∧ (r.StopReconnection.StartReconnection).1.reconnectionLoopEntry fuel tryOutcome
        = ((r.StopReconnection.StartReconnection).1, 0, [])
    ∧ (r.StopReconnection.StartReconnection).1.StartReconnection
        = ((r.StopReconnection.StartReconnection).1, false) := by
  refine ⟨rfl, rfl, rfl, ?_, rfl⟩
  cases fuel <;>
    simp [Reconnector.reconnectionLoopEntry, Reconnector.reconnectionLoop,
      Reconnector.StopReconnection, Reconnector.StartReconnection]

/-- Claim C4: `StartReconnection` is idempotent — with the reconnecting flag
already set it changes nothing and launches no loop; with the flag clear it
only sets the flag and launches the loop. -/
theorem C4_startReconnection_idempotent (r : Reconnector) :
    (r.reconnecting = true → r.StartReconnection = (r, false))
    ∧ (r.reconnecting = false →
        r.StartReconnection = ({ r with reconnecting := true }, true)) := by
  constructor <;> intro h <;> simp [Reconnector.StartReconnection, h]

/-- Witness for claim C4 at the freshly constructed reconnector: the first
call launches the loop, a second call while reconnecting is a no-op. -/
theorem C4_startReconnection_idempotent_witness :
    reconnector0.StartReconnection = ({ reconnector0 with reconnecting := true }, true)
    ∧ ({ reconnector0 with reconnecting := true } : Reconnector).StartReconnection
        = ({ reconnector0 with reconnecting := true }, false) :=
  ⟨(C4_startReconnection_idempotent reconnector0).2 rfl,
   (C4_startReconnection_idempotent { reconnector0 with reconnecting := true }).1 rfl⟩

/-- Claim C1 (code evaluated at the failing input): two consecutive
identical (level, message) log calls on the fresh logger — suppression on,
level at the Info threshold — leave exactly one entry in the buffer, but
that stored entry's repeat counter remains 1 and its timestamp remains that
of the first call; only the detached `lastEntry` cell (Go `&entry` aliases
the escaped local, not the slice element) reaches count 2. -/
theorem C1_stored_repeat_count_stays_one :
    ((databaseLogger0.addEntry LogLevelInfo "m" "" none 10).addEntry
        LogLevelInfo "m" "" none 20).entries.map LogEntry.count = [ 1 ]
    ∧ ((databaseLogger0.addEntry LogLevelInfo "m" "" none 10).addEntry
        LogLevelInfo "m" "" none 20).entries.map LogEntry.timestamp = [ 10 ]
    ∧ ((databaseLogger0.addEntry LogLevelInfo "m" "" none 10).addEntry
        LogLevelInfo "m" "" none 20).lastEntry.map LogEntry.count = some 2
    ∧ ¬ ((databaseLogger0.addEntry LogLevelInfo "m" "" none 10).addEntry
        LogLevelInfo "m" "" none 20).entries.map LogEntry.count = [ 2 ] := by
  refine ⟨rfl, rfl, rfl, ?_⟩
  decide

/-- The backoff delay of a run is the `n`-fold doubling-with-cap of the
initial one-second delay. -/
theorem delaySeq_eq_iterate (n : Nat) : delaySeq n = nextDelay^[n] 1 := by
  induction n with
  | zero => rfl
  | succ n ih => rw [delaySeq, ih, Function.iterate_succ_apply']

/-- Closed form of the backoff delays: `2 ^ n` capped at 30 seconds. -/
theorem delaySeq_closed (n : Nat) : delaySeq n = min (2 ^ n) 30 := by
  induction n with
  | zero => rfl
  | succ n ih =>
    rw [delaySeq, ih, nextDelay, pow_succ]
    split <;> omega

/-- With the context live, a run of the retry loop in which every attempt
fails sleeps exactly the doubling-with-cap delays starting from `d`. -/
theorem reconnectionLoop_waits (fuel : Nat) :
    ∀ (r : Reconnector) (msgf : Nat → String) (idx d : Nat),
      r.ctxCancelled = false →
      (r.reconnectionLoop fuel (fun i => some (msgf i)) idx d).2.2
        = (List.range fuel).map (fun i => nextDelay^[i] d) := by
  induction fuel with
  | zero => intro r msgf idx d _; rfl
  | succ fuel ih =>
    intro r msgf idx d h
    obtain ⟨c1, c2, c3, rc, le, eh⟩ := r
    subst h
    rw [List.range_succ_eq_map]
    simp [Reconnector.reconnectionLoop, Function.iterate_succ_apply, Function.comp,
      ih ⟨c1, c2, false, rc + 1, some (msgf idx), addErrorToHistory eh (msgf idx)⟩
        msgf (idx + 1) (nextDelay d) rfl]
    rw [show ((fun i => nextDelay^[i] d) ∘ Nat.succ) = fun i => nextDelay^[i] (nextDelay d)
      from funext fun i => Function.iterate_succ_apply nextDelay i d]
    exact (List.range_map_iterate fuel nextDelay (nextDelay d)).symm

/-- Claim C2: in every run of the reconnection loop the inter-attempt delays
start at 1 second, double after each failed attempt and are capped at 30
seconds — closed form `min (2 ^ n) 30`, concrete prefix 1,2,4,8,16,30,30,30,
never decreasing within a run — and a run of the loop entry (a fresh loop
invocation, which restarts at 1 second) in which every attempt fails sleeps
exactly those delays in order. -/
theorem C2_backoff_sequence (fuel : Nat) :
    (∀ n, delaySeq n = min (2 ^ n) 30)
    ∧ (List.range 8).map delaySeq = [ 1, 2, 4, 8, 16, 30, 30, 30 ]
    ∧ (∀ n, delaySeq n ≤ delaySeq (n + 1))
    ∧ (∀ (r : Reconnector) (msgf : Nat → String), r.ctxCancelled = false →
        (r.reconnectionLoopEntry fuel (fun i => some (msgf i))).2.2
          = (List.range fuel).map delaySeq) := by
  refine ⟨delaySeq_closed, by decide, ?_, ?_⟩
  · intro n
    rw [delaySeq_closed, delaySeq_closed]
    have h2 : (2 : Nat) ^ n ≤ 2 ^ (n + 1) :=
      Nat.pow_le_pow_right (by norm_num) (Nat.le_succ n)
    omega
  · intro r msgf h
    rw [Reconnector.reconnectionLoopEntry, reconnectionLoop_waits fuel r msgf 0 1 h]
    exact List.map_congr_left fun i _ => (delaySeq_eq_iterate i).symm

/-- Witness for claim C2: six all-failing attempts of a fresh run sleep
1, 2, 4, 8, 16 and 30 seconds. -/
theorem C2_backoff_sequence_witness :
    (reconnector0.reconnectionLoopEntry 6 (fun _ => some "connection refused")).2.2
      = [ 1, 2, 4, 8, 16, 30 ] :=
  (((C2_backoff_sequence 6).2.2.2 reconnector0 (fun _ => "connection refused") rfl).trans
    (by decide))

/-- Counterexample to claim C3 as stated: for the authentication pattern
(AUTH_001, table index 3) with `retryCount = 0`, the immediate-check hint is
NOT appended — the suggestion is the unaugmented base — contradicting
"always appends an immediate-check hint regardless of retryCount". -/
theorem C3_auth_hint_absent_at_zero_retries :
    enhanceSuggestion (errorPatterns.getD 3 unknownPattern) 0
      = (errorPatterns.getD 3 unknownPattern).suggestion
    ∧ ¬ enhanceSuggestion (errorPatterns.getD 3 unknownPattern) 0
        = (errorPatterns.getD 3 unknownPattern).suggestion
          ++ " | 认证错误通常不会通过重试解决，请立即检查配置" := by
  constructor
  · rfl
  · decide

/-- Claim C3 as amended: `enhanceSuggestion` returns the base suggestion
augmented by the retry-aware rules — network category appends the stability
hint exactly when retryCount > 10, timeout category appends the
timeout-config hint exactly when retryCount > 5, and authentication category
appends the immediate-check hint exactly when retryCount > 0 (not at
retryCount = 0); every other category is returned unaugmented. -/
theorem C3_enhanceSuggestion_characterization (p : ErrorPattern) (rc : Int) :
    (p.type = ErrorTypeNetwork →
      enhanceSuggestion p rc =
        if rc > 10 then
          p.suggestion ++ " | 已重试" ++ toString rc ++ "次，建议检查网络稳定性"
        else p.suggestion)
    ∧ (p.type = ErrorTypeTimeout →
      enhanceSuggestion p rc =
        if rc > 5 then
          p.suggestion ++ " | 连续" ++ toString rc ++ "次超时，建议增加超时配置"
        else p.suggestion)
    ∧ (p.type = ErrorTypeAuth →
      enhanceSuggestion p rc =
        if rc > 0 then
          p.suggestion ++ " | 认证错误通常不会通过重试解决，请立即检查配置"
        else p.suggestion)
    ∧ (¬ p.type = ErrorTypeNetwork → ¬ p.type = ErrorTypeTimeout →
        ¬ p.type = ErrorTypeAuth → enhanceSuggestion p rc = p.suggestion) := by
  have h1 : ¬ (ErrorTypeTimeout = ErrorTypeNetwork) := by decide
  have h2 : ¬ (ErrorTypeAuth = ErrorTypeNetwork) := by decide
  have h3 : ¬ (ErrorTypeAuth = ErrorTypeTimeout) := by decide
  refine ⟨fun h => ?_, fun h => ?_, fun h => ?_, fun ha hb hc => ?_⟩
  · simp only [enhanceSuggestion, h, if_pos rfl]
    split_ifs <;> first | rfl | omega
  · simp only [enhanceSuggestion, h, if_neg h1, if_pos rfl]
    split_ifs <;> first | rfl | omega
  · simp only [enhanceSuggestion, h, if_neg h2, if_neg h3, if_pos rfl]
    split_ifs <;> rfl
  · simp only [enhanceSuggestion, if_neg ha, if_neg hb, if_neg hc]
    split_ifs <;> rfl

/-- Witness for claim C3 (amended) at the authentication pattern with one
retry: the immediate-check hint is appended. -/
theorem C3_enhanceSuggestion_characterization_witness :
    enhanceSuggestion (errorPatterns.getD 3 unknownPattern) 1
      = (errorPatterns.getD 3 unknownPattern).suggestion
        ++ " | 认证错误通常不会通过重试解决，请立即检查配置" := by
  have h := (C3_enhanceSuggestion_characterization
    (errorPatterns.getD 3 unknownPattern) 1).2.2.1 (by decide)
  rw [if_pos (by norm_num : (1 : Int) > 0)] at h
  exact h

/-- The purge loop keeps exactly the summaries at or after the cutoff and
counts exactly the ones before it. -/
theorem clearOldLoop_spec (cutoff : Int) (l : List (String × ErrorSummary)) :
    clearOldLoop cutoff l
      = (l.filter (fun kv => decide (cutoff ≤ kv.2.lastSeen)),
         (l.filter (fun kv => decide (kv.2.lastSeen < cutoff))).length) := by
  induction l with
  | nil => rfl
  | cons kv rest ih =>
    by_cases h : kv.2.lastSeen < cutoff
    · have h' : ¬ cutoff ≤ kv.2.lastSeen := by omega
      simp [clearOldLoop, ih, List.filter_cons, h, h']
    · have h' : cutoff ≤ kv.2.lastSeen := by omega
      simp [clearOldLoop, ih, List.filter_cons, h, h']

/-- Claim C7: `ClearOldErrors olderThan` (at instant `now`) removes exactly
the summaries whose `lastSeen` is strictly earlier than `now - olderThan`,
returns the number removed, and leaves every other summary (and the rest of
the analyzer state) unchanged: the survivors are precisely the original
entries at or after the cutoff, kept as they were. -/
theorem C7_clearOldErrors_exact (ea : ErrorAnalyzer) (olderThan now : Int) :
    ((ea.ClearOldErrors olderThan now).1).summaries
      = ea.summaries.filter (fun kv => decide (now - olderThan ≤ kv.2.lastSeen))
    ∧ (ea.ClearOldErrors olderThan now).2
      = (ea.summaries.filter (fun kv => decide (kv.2.lastSeen < now - olderThan))).length
    ∧ ((ea.ClearOldErrors olderThan now).1).maxExamples = ea.maxExamples
    ∧ (∀ kv ∈ ((ea.ClearOldErrors olderThan now).1).summaries, kv ∈ ea.summaries)
    ∧ (∀ kv ∈ ea.summaries, now - olderThan ≤ kv.2.lastSeen →
        kv ∈ ((ea.ClearOldErrors olderThan now).1).summaries) := by
  have hspec := clearOldLoop_spec (now - olderThan) ea.summaries
  refine ⟨?_, ?_, rfl, ?_, ?_⟩
  · show (clearOldLoop (now - olderThan) ea.summaries).1 = _
    rw [hspec]
  · show (clearOldLoop (now - olderThan) ea.summaries).2 = _
    rw [hspec]
  · intro kv hkv
    have : kv ∈ (clearOldLoop (now - olderThan) ea.summaries).1 := hkv
    rw [hspec] at this
    exact List.mem_of_mem_filter this
  · intro kv hkv hle
    show kv ∈ (clearOldLoop (now - olderThan) ea.summaries).1
    rw [hspec]
    exact List.mem_filter.mpr ⟨hkv, by simpa using hle⟩

/-- Witness for claim C7 on a concrete analyzer: purging entries older than
5 time units before instant 100 keeps the summary last seen at 99. -/
theorem C7_clearOldErrors_exact_witness :
    ( "timeout_TIME_001", summaryExampleNew )
      ∈ ((analyzerExample.ClearOldErrors 5 100).1).summaries :=
  (C7_clearOldErrors_exact analyzerExample 5 100).2.2.2.2
    ( "timeout_TIME_001", summaryExampleNew ) (by decide) (by decide)

/-- Counterexample to claim C8 as stated: a logger whose two-entry buffer
meets its bound of two is pushed out of bounds by `SetMaxEntries 1`, which
stores the smaller bound without trimming. -/
theorem C8_setMaxEntries_breaks_bound :
    ((loggerAtCapacity.entries.length : Int) ≤ loggerAtCapacity.maxEntries)
    ∧ ¬ (((loggerAtCapacity.SetMaxEntries 1).entries.length : Int)
          ≤ (loggerAtCapacity.SetMaxEntries 1).maxEntries) := by
  decide

/-- Claim C8 as amended: the freshly constructed logger satisfies the bound
with the default maximum 100, `addEntry` preserves "length ≤ maxEntries"
whenever the configured maximum is at least 1 (appending evicts the oldest
entry at capacity, the suppression and below-threshold paths leave the
buffer alone), and `SetMaxEntries m` preserves it exactly when the new
maximum `m` is not below the current buffer length — shrinking it below the
current length violates the bound (see the counterexample). -/
theorem C8_buffer_bound_preserved (dl : DatabaseLogger) (level : LogLevel)
    (message details : String) (connInfo : Option ConnectionInfo) (now m : Int) :
    ((databaseLogger0.entries.length : Int) ≤ databaseLogger0.maxEntries
      ∧ databaseLogger0.maxEntries = 100)
    ∧ (1 ≤ dl.maxEntries → (dl.entries.length : Int) ≤ dl.maxEntries →
        ((dl.addEntry level message details connInfo now).entries.length : Int)
          ≤ (dl.addEntry level message details connInfo now).maxEntries)
    ∧ ((dl.entries.length : Int) ≤ m →
        ((dl.SetMaxEntries m).entries.length : Int) ≤ (dl.SetMaxEntries m).maxEntries) := by
  refine ⟨⟨by decide, rfl⟩, ?_, fun hm => hm⟩
  intro h1 h2
  unfold DatabaseLogger.addEntry
  split_ifs with hlv hdup hcap
  · exact h2
  · cases hle : dl.lastEntry with
    | none => simpa using h2
    | some le => simpa using h2
  · simp only [List.length_append, List.length_cons, List.length_nil, List.length_drop]
    push_cast
    push_cast at hcap
    omega
  · simp only [List.length_append, List.length_cons, List.length_nil]
    push_cast
    push_cast at hcap
    omega

/-- Witness for claim C8 (amended): logging a warning on the fresh logger
keeps the buffer within its bound. -/
theorem C8_buffer_bound_preserved_witness :
    (((databaseLogger0.addEntry LogLevelWarn "w" "" none 3).entries.length : Int)
      ≤ (databaseLogger0.addEntry LogLevelWarn "w" "" none 3).maxEntries) :=
  (C8_buffer_bound_preserved databaseLogger0 LogLevelWarn "w" "" none 3 0).2.1
    (by decide) (by decide)

/-- A character-wise map preserves contiguous-substring occurrence. -/
theorem isInfix_map (f : Char → Char) {l1 l2 : List Char} (h : l1 <:+: l2) :
    l1.map f <:+: l2.map f := by
  obtain ⟨s, t, rfl⟩ := h
  exact ⟨s.map f, t.map f, by simp⟩

/-- The keyword scan of `matchErrorPattern` succeeds exactly when some
keyword occurs, lower-cased, in the scanned (already lower-cased) message. -/
theorem scanKeywords_iff (lmsg : String) (ks : List String) :
    scanKeywords lmsg ks = true ↔ ∃ k ∈ ks, (goToLower k).data <:+: lmsg.data := by
  induction ks with
  | nil => simp [scanKeywords]
  | cons k ks ih =>
    rcases Decidable.em ((goToLower k).data <:+: lmsg.data) with h | h
    · simp [scanKeywords, goContains, h]
    · simp [scanKeywords, goContains, h, ih]

/-- The pattern scan returns the first table entry whose keywords hit,
skipping any prefix of non-hitting entries. -/
theorem scanPatterns_append (lmsg : String) (l1 : List ErrorPattern)
    (p : ErrorPattern) (l2 : List ErrorPattern)
    (hnone : ∀ q ∈ l1, scanKeywords lmsg q.keywords = false)
    (hp : scanKeywords lmsg p.keywords = true) :
    scanPatterns lmsg (l1 ++ p :: l2) = some p := by
  induction l1 with
  | nil => simp [scanPatterns, hp]
  | cons q l1 ih =>
    have hq := hnone q (by simp)
    simp only [List.cons_append, scanPatterns, hq]
    exact ih fun q' hq' => hnone q' (by simp [hq'])

/-- The pattern scan returns nothing when no table entry hits. -/
theorem scanPatterns_none (lmsg : String) (ps : List ErrorPattern)
    (h : ∀ p ∈ ps, scanKeywords lmsg p.keywords = false) :
    scanPatterns lmsg ps = none := by
  induction ps with
  | nil => rfl
  | cons p ps ih =>
    have hp := h p (by simp)
    simp only [scanPatterns, hp]
    exact ih fun q hq => h q (by simp [hq])

/-- Claim C5: `matchErrorPattern` lower-cases the message, scans the table
in its fixed order and returns the first pattern one of whose keywords
occurs case-insensitively in the message; with no hit it returns the
unknown/UNK_001 default; and any message containing "connection refused"
yields the network/NET_001 pattern (the first table entry). -/
theorem C5_matchErrorPattern_first_match (msg : String) :
    (∀ l1 p l2, errorPatterns = l1 ++ p :: l2 →
        (∀ q ∈ l1, ¬ keywordHit q msg) → keywordHit p msg →
        matchErrorPattern msg = p)
    ∧ ((∀ p ∈ errorPatterns, ¬ keywordHit p msg) →
        matchErrorPattern msg = unknownPattern)
    ∧ ( "connection refused".data <:+: msg.data →
        (matchErrorPattern msg).type = ErrorTypeNetwork
          ∧ (matchErrorPattern msg).code = "NET_001") := by
  have hfirst : ∀ l1 p l2, errorPatterns = l1 ++ p :: l2 →
      (∀ q ∈ l1, ¬ keywordHit q msg) → keywordHit p msg →
      matchErrorPattern msg = p := by
    intro l1 p l2 heq hnone hp
    unfold matchErrorPattern
    rw [heq, scanPatterns_append (goToLower msg) l1 p l2
      (fun q hq => Bool.eq_false_iff.mpr
        (fun ht => hnone q hq ((scanKeywords_iff (goToLower msg) q.keywords).mp ht)))
      ((scanKeywords_iff (goToLower msg) p.keywords).mpr hp)]
  refine ⟨hfirst, ?_, ?_⟩
  · intro hall
    unfold matchErrorPattern
    rw [scanPatterns_none (goToLower msg) errorPatterns
      (fun p hp => Bool.eq_false_iff.mpr
        (fun ht => hall p hp ((scanKeywords_iff (goToLower msg) p.keywords).mp ht)))]
  · intro hcr
    have hlow : (goToLower "connection refused").data
        = ( "connection refused" : String).data := by decide
    have hmap : (goToLower msg).data = msg.data.map Char.toLower := rfl
    have hfix : ( "connection refused" : String).data
        = ( "connection refused" : String).data.map Char.toLower := by decide
    have hinf : (goToLower "connection refused").data <:+: (goToLower msg).data := by
      rw [hlow, hmap, hfix]
      exact isInfix_map Char.toLower hcr
    have hhit : keywordHit (errorPatterns.getD 0 unknownPattern) msg :=
      ⟨ "connection refused", by decide, hinf⟩
    have hm : matchErrorPattern msg = errorPatterns.getD 0 unknownPattern := by
      refine hfirst [] (errorPatterns.getD 0 unknownPattern) (errorPatterns.drop 1)
        (by rfl) (by simp) hhit
    rw [hm]
    exact ⟨rfl, rfl⟩

/-- Witness for claim C5: a concrete MySQL dial error containing
"connection refused" is classified as network/NET_001. -/
theorem C5_matchErrorPattern_first_match_witness :
    (matchErrorPattern "dial tcp 127.0.0.1:3306: connect: connection refused").type
        = ErrorTypeNetwork
    ∧ (matchErrorPattern "dial tcp 127.0.0.1:3306: connect: connection refused").code
        = "NET_001" :=
  (C5_matchErrorPattern_first_match
    "dial tcp 127.0.0.1:3306: connect: connection refused").2.2 (by decide)

end BlockChecker
